import Mathlib

/-! A verification development for the SST writer/reader module
(components/engine/src/rocks/sst.rs) and the statistics aggregator
(src/storage/kv/stats.rs) of the tikv snapshot under study. Pure Rust code is
embedded directly; behaviour of the opaque native engine (engine_rocksdb) is
modelled from the specification where the doc comments say so. -/

/-- Byte strings (rust u8 slices) are modelled as lists of byte values. -/
abbrev Bytes : Type := List Nat

/-- Modelled from the spec: an operating-system path that may or may not be
representable as engine-compatible text (valid UTF-8). The native PathBuf is
abstracted to exactly the property finish_read tests. -/
inductive OsPath : Type
  | utf8 (s : String)
  | nonUtf8 (raw : List Nat)
deriving DecidableEq

/-- Rust OsStr::to_str: some string for a valid UTF-8 path, none otherwise. -/
def OsPath.to_str : OsPath → Option String
  | OsPath.utf8 s => some s
  | OsPath.nonUtf8 _ => none

/-- Rust Path::display rendering, lossy for non-UTF-8 paths. -/
def OsPath.display : OsPath → String
  | OsPath.utf8 s => s
  | OsPath.nonUtf8 raw => String.join (raw.map (fun _ => "�"))

/-- Modelled from the spec: a file environment selects where file bytes live.
Env.mem stands for the fresh memory-backed environment created by
Env::new_mem (reference identity of the native Arc is abstracted); Env.db tags
an environment exposed by a source database. -/
inductive Env : Type
  | mem
  | db (id : Nat)
deriving DecidableEq

/-- Embeds Env::new_mem(): a fresh memory-backed environment. -/
def Env.new_mem : Env := Env.mem

/-- Column family names (crate::CfName). -/
abbrev CfName : Type := String

/-- Embeds crate::CF_DEFAULT. -/
def CF_DEFAULT : CfName := "default"

/-- Compression algorithms of the native engine, as declared by
engine_rocksdb's DBCompressionType. -/
inductive DBCompressionType : Type
  | no
  | snappy
  | zlib
  | bz2
  | lz4
  | lz4hc
  | zstd
  | zstdNotFinal
  | disable
deriving DecidableEq

/-- Embeds fmt_db_compression_type (sst.rs lines 100-107). The catch-all arm
of the source is an unreachable-panic; it is modelled as none. -/
def fmt_db_compression_type : DBCompressionType → Option String
  | DBCompressionType.lz4 => some ("lz4")
  | DBCompressionType.snappy => some ("snappy")
  | DBCompressionType.zstd => some ("zstd")
  | _ => none

/-- Embeds the ColumnFamilyOptions bundle with the fields sst.rs manipulates;
other_settings stands for the rest of the opaque native bundle, so that
options inherited from a database can differ arbitrarily from defaults. -/
structure ColumnFamilyOptions : Type where
  env : Option Env
  compression : DBCompressionType
  compression_per_level : List DBCompressionType
  bottommost_compression : DBCompressionType
  other_settings : Nat
deriving DecidableEq

/-- Embeds ColumnFamilyOptions::new() with the native default settings. -/
def ColumnFamilyOptions.new : ColumnFamilyOptions :=
  { env := none
    compression := DBCompressionType.snappy
    compression_per_level := []
    bottommost_compression := DBCompressionType.disable
    other_settings := 0 }

/-- Embeds ColumnFamilyOptions::set_env. -/
def ColumnFamilyOptions.set_env (o : ColumnFamilyOptions) (e : Env) :
    ColumnFamilyOptions :=
  { o with env := some e }

/-- A column-family handle paired with the options it resolves to
(db.cf_handle composed with db.get_options_cf). -/
abbrev CfHandle : Type := CfName × ColumnFamilyOptions

/-- Modelled from the spec: the source database exposes cf_handle,
get_options_cf and env as read-only queries. -/
structure DB : Type where
  env : Option Env
  cfs : List CfHandle
deriving DecidableEq

/-- Embeds db.cf_handle(name). -/
def DB.cf_handle (d : DB) (name : CfName) : Option CfHandle :=
  d.cfs.find? (fun h => h.fst == name)

/-- Embeds db.get_options_cf(handle).clone(). -/
def DB.get_options_cf (_d : DB) (h : CfHandle) : ColumnFamilyOptions := h.snd

/-- A record of an SST file: a live key/value pair or a tombstone. -/
inductive Record : Type
  | put (key val : Bytes)
  | del (key : Bytes)
deriving DecidableEq

/-- The key of a record. -/
def Record.key : Record → Bytes
  | Record.put k _ => k
  | Record.del k => k

/-- Modelled from the spec: the byte size contributed by one record. -/
def Record.rec_size : Record → Nat
  | Record.put k v => k.length + v.length + 2
  | Record.del k => k.length + 1

/-- The content of a finalized SST file: its ordered record sequence. -/
abbrev SstFile : Type := List Record

/-- Modelled from the spec: a finalized file has a positive byte size. -/
def sst_file_size (rs : SstFile) : Nat :=
  1 + (rs.map Record.rec_size).sum

/-- A sequential read-back stream over a finalized file's content. -/
abbrev SequentialFile : Type := SstFile

/-- The engine's default bytewise comparator: lexicographic order on byte
strings, a proper prefix sorting before its extensions. -/
def bytesLt : Bytes → Bytes → Bool
  | _, [] => false
  | [], _ :: _ => true
  | x :: xs, y :: ys =>
    if x < y then true
    else if x = y then bytesLt xs ys
    else false

/-- The append-only ordering guard: a fresh key must sort after the last
appended key, if any. -/
def ordOk : Option Bytes → Bytes → Bool
  | none, _ => true
  | some lk, k => bytesLt lk k

/-- All keys of the list are strictly increasing, the first also sorting
after the given last key. -/
def incrFrom : Option Bytes → List Bytes → Bool
  | _, [] => true
  | last, k :: ks => ordOk last k && incrFrom (some k) ks

/-- A strictly increasing key sequence. -/
def strictIncr (ks : List Bytes) : Bool := incrFrom none ks

/-- Observable native-engine effects of a run. -/
inductive Event : Type
  | writerConstructed
  | fileOpened (path : String)
  | finishCalled
  | seqOpenAttempt (path : String)
deriving DecidableEq

/-- The result of a rust call: Ok, Err, or a panic (e.g. through
unreachable!). -/
inductive Outcome (α : Type) : Type
  | ok (a : α)
  | err (msg : String)
  | panicked (msg : String)
deriving DecidableEq

/-- The error message of finish_read when no owned environment exists
(sst.rs line 142). -/
def missingEnvMsg : String := "failed to read sequential file no env provided"

/-- The prefix of the error message of finish_read on a non-representable
path (sst.rs line 148). -/
def badPathPrefix : String := "failed to sequential file bad path "

/-- Modelled from the spec: the engine's ordering-violation message. -/
def orderMsg : String := "Keys must be added in order"

/-- The error message of build on an unsupported explicit compression type
(sst.rs lines 79-82). -/
def unsupportedMsg (s : String) : String :=
  "compression type '" ++ s ++ "' is not supported by rocksdb"

/-- The panic message of the rust unreachable! macro. -/
def unreachableMsg : String := "internal error: entered unreachable code"

/-- Rust Debug rendering of the builder's optional cf name. -/
def cfDebug : Option CfName → String
  | none => "None"
  | some s => "Some(\"" ++ s ++ "\")"

/-- The error message of build when the column family is absent
(sst.rs line 63). -/
def cfNotFoundMsg (cf : Option CfName) : String :=
  "CF " ++ cfDebug cf ++ " is not found"

/-- The engine's error message for a missing file. -/
def noSuchFileMsg (p : String) : String :=
  "No such file or directory: " ++ p

/-- Modelled from the spec: the native SstFileWriter accumulates the ordered
record sequence for the file opened at path, under the resolved options;
finish_fail injects the engine's opaque finalization failure (none for the
runs build produces). -/
structure SstFileWriter : Type where
  path : OsPath
  opts : ColumnFamilyOptions
  records : List Record
  finish_fail : Option String
deriving DecidableEq

/-- Embeds SstFileWriter::new plus writer.open(path) (sst.rs lines 94-95):
a fresh native writer over the resolved options, opened at path
(EnvOptions::new() carries no state relevant here). -/
def SstFileWriter.new (opts : ColumnFamilyOptions) (p : OsPath) : SstFileWriter :=
  { path := p, opts := opts, records := [], finish_fail := none }

/-- The key of the last appended record, if any. -/
def SstFileWriter.lastKey (w : SstFileWriter) : Option Bytes :=
  w.records.getLast?.map Record.key

/-- Modelled from the spec: the native put appends a live record, rejecting
keys that do not sort after the last appended key. -/
def SstFileWriter.put (w : SstFileWriter) (key val : Bytes) :
    Except String SstFileWriter :=
  if ordOk w.lastKey key then
    Except.ok { w with records := w.records ++ [Record.put key val] }
  else Except.error orderMsg

/-- Modelled from the spec: the native delete appends a tombstone, with the
same ordering requirement. -/
def SstFileWriter.delete (w : SstFileWriter) (key : Bytes) :
    Except String SstFileWriter :=
  if ordOk w.lastKey key then
    Except.ok { w with records := w.records ++ [Record.del key] }
  else Except.error orderMsg

/-- The finalization summary (ExternalSstFileInfo): file path, entry count,
byte size. -/
structure ExternalSstFileInfo : Type where
  file_path : OsPath
  num_entries : Nat
  file_size : Nat
deriving DecidableEq

/-- Modelled from the spec: the native finish flushes the accumulated records
as the file content inside the writer's environment and returns the summary;
the content is returned alongside, standing for the file written there. -/
def SstFileWriter.finish (w : SstFileWriter) :
    Except String (ExternalSstFileInfo × SstFile) :=
  match w.finish_fail with
  | some e => Except.error e
  | none =>
    Except.ok
      ({ file_path := w.path, num_entries := w.records.length,
         file_size := sst_file_size w.records }, w.records)

/-- Embeds SstWriter (sst.rs lines 110-113): the native writer plus the
optional owned environment. -/
structure SstWriter : Type where
  writer : SstFileWriter
  env : Option Env
deriving DecidableEq

/-- Embeds SstWriter::put (sst.rs lines 118-120). -/
def SstWriter.put (w : SstWriter) (key val : Bytes) : Except String SstWriter :=
  match w.writer.put key val with
  | Except.ok fw => Except.ok { w with writer := fw }
  | Except.error e => Except.error e

/-- Embeds SstWriter::delete (sst.rs lines 124-126). -/
def SstWriter.delete (w : SstWriter) (key : Bytes) : Except String SstWriter :=
  match w.writer.delete key with
  | Except.ok fw => Except.ok { w with writer := fw }
  | Except.error e => Except.error e

/-- Embeds SstWriter::file_size (sst.rs lines 129-131). -/
def SstWriter.file_size (w : SstWriter) : Nat := sst_file_size w.writer.records

/-- A sequence of put and delete calls on the writer, described by the
records they would append; stops at the first error, as a caller would. -/
def SstWriter.applyOps (w : SstWriter) : List Record → Except String SstWriter
  | [] => Except.ok w
  | Record.put k v :: rest =>
    match w.put k v with
    | Except.ok w1 => w1.applyOps rest
    | Except.error e => Except.error e
  | Record.del k :: rest =>
    match w.delete k with
    | Except.ok w1 => w1.applyOps rest
    | Except.error e => Except.error e

/-- Embeds SstWriter::finish (sst.rs lines 134-136). -/
def SstWriter.finish (w : SstWriter) :
    Except String (ExternalSstFileInfo × SstFile) :=
  w.writer.finish

/-- Modelled from the spec: opening a sequential stream through the owned
environment hands back the content just finalized there. -/
def Env.new_sequential_file (_e : Env) (_p : String) (content : SstFile) :
    SequentialFile :=
  content

/-- Embeds SstWriter::finish_read (sst.rs lines 138-151), together with the
native events it performs: the environment check comes first, then finish,
then the UTF-8 path check, and only then the sequential open. -/
def SstWriter.finish_read (w : SstWriter) :
    Outcome (ExternalSstFileInfo × SequentialFile) × List Event :=
  match w.env with
  | none => (Outcome.err missingEnvMsg, [])
  | some e =>
    match w.writer.finish with
    | Except.error m => (Outcome.err m, [Event.finishCalled])
    | Except.ok (info, content) =>
      match info.file_path.to_str with
      | none =>
        (Outcome.err (badPathPrefix ++ info.file_path.display),
         [Event.finishCalled])
      | some p =>
        (Outcome.ok (info, e.new_sequential_file p content),
         [Event.finishCalled, Event.seqOpenAttempt p])

/-- Embeds SstReader (sst.rs lines 155-157), bound to an opened file. -/
structure SstReader : Type where
  file : SstFile
deriving DecidableEq

/-- A file system view: finalized file contents by path. -/
def fsLookup : List (OsPath × SstFile) → OsPath → Option SstFile
  | [], _ => none
  | pr :: rest, p => if pr.fst = p then some pr.snd else fsLookup rest p

/-- Embeds SstReader::open (sst.rs lines 160-164) over the files present. -/
def SstReader.open (fs : List (OsPath × SstFile)) (path : String) :
    Except String SstReader :=
  match fsLookup fs (OsPath.utf8 path) with
  | some f => Except.ok { file := f }
  | none => Except.error (noSuchFileMsg path)

/-- Embeds SstReader::iter (sst.rs lines 170-172): the ordered record
sequence of the file, tombstone markers included. -/
def SstReader.iter (r : SstReader) : List Record := r.file

/-- Embeds SstWriterBuilder (sst.rs lines 15-20). -/
structure SstWriterBuilder : Type where
  cf : Option CfName
  db : Option DB
  in_memory : Bool
  compression_type : Option DBCompressionType
deriving DecidableEq

/-- Embeds SstWriterBuilder::new (sst.rs lines 24-31). -/
def SstWriterBuilder.new : SstWriterBuilder :=
  { cf := none, in_memory := false, db := none, compression_type := none }

/-- Embeds set_db (sst.rs lines 34-37): returns the updated builder. -/
def SstWriterBuilder.set_db (b : SstWriterBuilder) (d : DB) : SstWriterBuilder :=
  { b with db := some d }

/-- Embeds set_cf (sst.rs lines 40-43): returns the updated builder. -/
def SstWriterBuilder.set_cf (b : SstWriterBuilder) (cf : CfName) :
    SstWriterBuilder :=
  { b with cf := some cf }

/-- Embeds set_in_memory (sst.rs lines 46-49): returns the updated builder. -/
def SstWriterBuilder.set_in_memory (b : SstWriterBuilder) (m : Bool) :
    SstWriterBuilder :=
  { b with in_memory := m }

/-- Embeds set_compression_type (sst.rs lines 52-54): the source takes the
builder by value and returns the unit value, so the updated builder is
dropped and the setting is lost. -/
def SstWriterBuilder.set_compression_type (_b : SstWriterBuilder)
    (_c : Option DBCompressionType) : Unit := ()

/-- Modelled from the spec: get_fastest_supported_compression_type picks the
fastest algorithm of the engine's supported set in a fixed preference order,
falling back to no compression. -/
def get_fastest_supported_compression_type
    (supported : List DBCompressionType) : DBCompressionType :=
  (([DBCompressionType.lz4, DBCompressionType.snappy,
     DBCompressionType.zstd].find? (fun c => supported.contains c)).getD
    DBCompressionType.no)

/-- Embeds build lines 58-67: resolve the base options and the candidate
environment from the source database, if any. -/
def SstWriterBuilder.resolve_base (b : SstWriterBuilder) :
    Except String (Option Env × ColumnFamilyOptions) :=
  match b.db with
  | some d =>
    match d.cf_handle (b.cf.getD CF_DEFAULT) with
    | some h => Except.ok (d.env, d.get_options_cf h)
    | none => Except.error (cfNotFoundMsg b.cf)
  | none => Except.ok (none, ColumnFamilyOptions.new)

/-- Embeds build lines 68-75: resolve the environment attached to the
options (second component) and the one remembered by the writer (first
component). -/
def resolve_env (in_mem : Bool) (env0 : Option Env)
    (opts : ColumnFamilyOptions) : Option Env × ColumnFamilyOptions :=
  if in_mem then (some Env.new_mem, opts.set_env Env.new_mem)
  else
    match env0 with
    | some e => (some e, opts.set_env e)
    | none => (none, opts)

/-- Embeds build lines 76-87: resolve the compression algorithm; an
explicitly requested unsupported one is rejected through a formatter that
panics outside lz4, snappy and zstd. -/
def resolve_compression (req : Option DBCompressionType)
    (supported : List DBCompressionType) : Outcome DBCompressionType :=
  match req with
  | some ct =>
    if supported.contains ct then Outcome.ok ct
    else
      match fmt_db_compression_type ct with
      | some s => Outcome.err (unsupportedMsg s)
      | none => Outcome.panicked unreachableMsg
  | none => Outcome.ok (get_fastest_supported_compression_type supported)

/-- Embeds SstWriterBuilder::build (sst.rs lines 57-97), with the native
events it performs: constructing the native writer and opening the file at
path happen only after every check has passed. -/
def SstWriterBuilder.build (b : SstWriterBuilder) (path : String)
    (supported : List DBCompressionType) : Outcome SstWriter × List Event :=
  match b.resolve_base with
  | Except.error e => (Outcome.err e, [])
  | Except.ok (env0, opts0) =>
    match resolve_compression b.compression_type supported with
    | Outcome.err m => (Outcome.err m, [])
    | Outcome.panicked m => (Outcome.panicked m, [])
    | Outcome.ok ct =>
      (Outcome.ok
        { writer :=
            SstFileWriter.new
              { (resolve_env b.in_memory env0 opts0).snd with
                compression := ct
                compression_per_level := []
                bottommost_compression := DBCompressionType.disable }
              (OsPath.utf8 path)
          env := (resolve_env b.in_memory env0 opts0).fst }
       , [Event.writerConstructed, Event.fileOpened path])

/-- The usize maximum; rust saturating_add caps at it. -/
def USIZE_MAX : Nat := 2 ^ 64 - 1

/-- Rust usize::saturating_add on the Nat model of usize. -/
def saturating_add (a b : Nat) : Nat := min (a + b) USIZE_MAX

/-- Modelled from the spec: the raftstore flow counters are simple additive
counters summed saturation-safely. -/
structure FlowStatistics : Type where
  read_keys : Nat
  read_bytes : Nat
deriving DecidableEq

/-- Modelled from the spec: FlowStatistics::add sums both counters with
saturating addition. -/
def FlowStatistics.add (s o : FlowStatistics) : FlowStatistics :=
  { read_keys := saturating_add s.read_keys o.read_keys
    read_bytes := saturating_add s.read_bytes o.read_bytes }

/-- Embeds CfStatistics (stats.rs lines 18-30). -/
structure CfStatistics : Type where
  processed_keys : Nat
  get : Nat
  next : Nat
  prev : Nat
  seek : Nat
  seek_for_prev : Nat
  over_seek_bound : Nat
  flow_stats : FlowStatistics
deriving DecidableEq

/-- Embeds CfStatistics::total_op_count (stats.rs lines 34-36). -/
def CfStatistics.total_op_count (s : CfStatistics) : Nat :=
  s.get + s.next + s.prev + s.seek + s.seek_for_prev

/-- Embeds CfStatistics::add (stats.rs lines 65-74). -/
def CfStatistics.add (s o : CfStatistics) : CfStatistics :=
  { processed_keys := saturating_add s.processed_keys o.processed_keys
    get := saturating_add s.get o.get
    next := saturating_add s.next o.next
    prev := saturating_add s.prev o.prev
    seek := saturating_add s.seek o.seek
    seek_for_prev := saturating_add s.seek_for_prev o.seek_for_prev
    over_seek_bound := saturating_add s.over_seek_bound o.over_seek_bound
    flow_stats := s.flow_stats.add o.flow_stats }

/-- Embeds Statistics (stats.rs lines 86-90). -/
structure Statistics : Type where
  lock : CfStatistics
  write : CfStatistics
  data : CfStatistics
deriving DecidableEq

/-- Embeds Statistics::add (stats.rs lines 112-116). -/
def Statistics.add (s o : Statistics) : Statistics :=
  { lock := s.lock.add o.lock
    write := s.write.add o.write
    data := s.data.add o.data }

/-- Every counter of the aggregate is within the usize range. -/
def CfStatistics.wf (s : CfStatistics) : Prop :=
  s.processed_keys ≤ USIZE_MAX ∧ s.get ≤ USIZE_MAX ∧ s.next ≤ USIZE_MAX ∧
  s.prev ≤ USIZE_MAX ∧ s.seek ≤ USIZE_MAX ∧ s.seek_for_prev ≤ USIZE_MAX ∧
  s.over_seek_bound ≤ USIZE_MAX ∧ s.flow_stats.read_keys ≤ USIZE_MAX ∧
  s.flow_stats.read_bytes ≤ USIZE_MAX

/-- Every counter of all three column families is within the usize range. -/
def Statistics.wf (s : Statistics) : Prop :=
  s.lock.wf ∧ s.write.wf ∧ s.data.wf

/-! Helper lemmas shared by the claim theorems. -/

theorem resolve_env_fst (m : Bool) (e : Option Env) (o : ColumnFamilyOptions) :
    (resolve_env m e o).fst = if m then some Env.mem else e := by
  cases m <;> cases e <;> rfl

theorem resolve_base_env (b : SstWriterBuilder) (e : Option Env)
    (o : ColumnFamilyOptions) (h : b.resolve_base = Except.ok (e, o)) :
    e = b.db.bind DB.env := by
  unfold SstWriterBuilder.resolve_base at h
  split at h
  · next d hdb =>
    split at h
    · next hd hcf =>
      simp at h
      rw [hdb]
      simp only [Option.bind]
      exact h.1.symm
    · next hcf => simp at h
  · next hdb =>
    simp at h
    rw [hdb]
    simp only [Option.bind]
    exact h.1.symm

theorem build_ok_inversion (b : SstWriterBuilder) (path : String)
    (sup : List DBCompressionType) (w : SstWriter) (evs : List Event)
    (h : b.build path sup = (Outcome.ok w, evs)) :
    ∃ env0 opts0 ct,
      b.resolve_base = Except.ok (env0, opts0) ∧
      resolve_compression b.compression_type sup = Outcome.ok ct ∧
      w = { writer :=
              SstFileWriter.new
                { (resolve_env b.in_memory env0 opts0).snd with
                  compression := ct
                  compression_per_level := []
                  bottommost_compression := DBCompressionType.disable }
                (OsPath.utf8 path)
            env := (resolve_env b.in_memory env0 opts0).fst } ∧
      evs = [Event.writerConstructed, Event.fileOpened path] := by
  unfold SstWriterBuilder.build at h
  cases hb : b.resolve_base with
  | error e => rw [hb] at h; simp at h
  | ok pr =>
    obtain ⟨env0, opts0⟩ := pr
    rw [hb] at h
    cases hc : resolve_compression b.compression_type sup with
    | err m => rw [hc] at h; simp at h
    | panicked m => rw [hc] at h; simp at h
    | ok ct =>
      rw [hc] at h
      simp at h
      exact ⟨env0, opts0, ct, rfl, rfl, h.1.symm, h.2.symm⟩

/-! Concrete example values used by witnesses and counterexamples. -/

/-- An example target path. -/
def path_ex : String := "sst"

/-- A database exposing an environment, with the default column family. -/
def db_with_env : DB :=
  { env := some (Env.db 0), cfs := [(CF_DEFAULT, ColumnFamilyOptions.new)] }

/-- A database with no environment and no column families. -/
def db_ex : DB := { env := none, cfs := [] }

/-- An example column family name. -/
def cf_write : CfName := "write"

/-- The writer produced by a plain disk-mode build with no source database. -/
def w_disk_built : SstWriter :=
  { writer :=
      { path := OsPath.utf8 path_ex
        opts :=
          { env := none
            compression := DBCompressionType.no
            compression_per_level := []
            bottommost_compression := DBCompressionType.disable
            other_settings := 0 }
        records := []
        finish_fail := none }
    env := none }

/-- A projection observing the environment carried by a built writer. -/
def built_env (r : Outcome SstWriter × List Event) : Outcome (Option Env) :=
  match r.fst with
  | Outcome.ok w => Outcome.ok w.env
  | Outcome.err m => Outcome.err m
  | Outcome.panicked m => Outcome.panicked m

/-- A projection observing finish_read applied to a built writer. -/
def built_finish_read (r : Outcome SstWriter × List Event) :
    Option (Outcome (ExternalSstFileInfo × SequentialFile) × List Event) :=
  match r.fst with
  | Outcome.ok w => some w.finish_read
  | Outcome.err _ => none
  | Outcome.panicked _ => none

/-- Claim C1, counterexample: a disk-mode build (in_memory = false) from a
source database exposing an environment yields a writer that does carry an
owned environment, and finish_read on it succeeds rather than failing with
the MissingEnvironment error. -/
theorem C1_counterexample :
    built_env ((SstWriterBuilder.new.set_db db_with_env).build path_ex []) =
      Outcome.ok (some (Env.db 0)) ∧
    built_finish_read
        ((SstWriterBuilder.new.set_db db_with_env).build path_ex []) =
      some
        (Outcome.ok
          ({ file_path := OsPath.utf8 path_ex, num_entries := 0,
             file_size := 1 }, []),
         [Event.finishCalled, Event.seqOpenAttempt path_ex]) :=
  ⟨rfl, rfl⟩

/-- Claim C1, amended: a writer produced by build carries an owned
environment exactly when in-memory mode was requested or the source database
exposes an environment; finish_read fails with the MissingEnvironment error
precisely on writers carrying none (in particular disk mode without a
database environment). -/
theorem C1_env_ownership (b : SstWriterBuilder) (path : String)
    (sup : List DBCompressionType) (w : SstWriter) (evs : List Event)
    (h : b.build path sup = (Outcome.ok w, evs)) :
    w.env = (if b.in_memory then some Env.mem else b.db.bind DB.env) ∧
    (w.env = none → w.finish_read = (Outcome.err missingEnvMsg, [])) := by
  obtain ⟨e0, o0, ct, hb, hc, hw, he⟩ := build_ok_inversion b path sup w evs h
  constructor
  · rw [hw]
    show (resolve_env b.in_memory e0 o0).fst = _
    rw [resolve_env_fst, resolve_base_env b e0 o0 hb]
  · intro hn
    unfold SstWriter.finish_read
    rw [hn]

/-- Claim C1, witness: the amended claim at a concrete disk-mode build with
no source database: no environment is owned and finish_read fails. -/
theorem C1_env_ownership_witness :
    SstWriterBuilder.new.build path_ex [] =
      (Outcome.ok w_disk_built,
       [Event.writerConstructed, Event.fileOpened path_ex]) ∧
    w_disk_built.env = none ∧
    w_disk_built.finish_read = (Outcome.err missingEnvMsg, []) := by
  have h := C1_env_ownership SstWriterBuilder.new path_ex [] w_disk_built
    [Event.writerConstructed, Event.fileOpened path_ex] rfl
  exact ⟨rfl, rfl, h.2 rfl⟩

/-- Claim C3, code bug: set_db, set_cf and set_in_memory return the updated
builder and can be chained, but set_compression_type consumes the builder by
value and returns the unit value, so the compression setting is discarded and
no call can ever be chained after it. -/
theorem C3_setter_code_bug :
    ((SstWriterBuilder.new.set_db db_ex).set_cf cf_write).set_in_memory true =
      { cf := some cf_write, db := some db_ex, in_memory := true,
        compression_type := none } ∧
    SstWriterBuilder.set_compression_type SstWriterBuilder.new
      (some DBCompressionType.lz4) = () :=
  ⟨rfl, rfl⟩

/-- A builder explicitly requesting lz4 compression, no source database. -/
def builder_lz4 : SstWriterBuilder :=
  { cf := none, db := none, in_memory := false,
    compression_type := some DBCompressionType.lz4 }

/-- A builder explicitly requesting zlib compression, no source database. -/
def builder_zlib : SstWriterBuilder :=
  { cf := none, db := none, in_memory := false,
    compression_type := some DBCompressionType.zlib }

/-- Claim C4, counterexample: requesting zlib while the engine's supported
set is empty makes build panic in the error-message formatter (the rust
unreachable! arm) instead of returning an UnsupportedCompression error. -/
theorem C4_counterexample :
    builder_zlib.build path_ex [] = (Outcome.panicked unreachableMsg, []) :=
  rfl

/-- Claim C4, amended: when the explicitly requested compression algorithm is
not in the engine's supported set and is one of lz4, snappy or zstd (the
algorithms the error formatter can render), and the column-family lookup did
not already fail, build returns the UnsupportedCompression error without
constructing a native writer or creating or opening any file; for any other
unsupported algorithm the error formatter panics instead. -/
theorem C4_unsupported_compression (b : SstWriterBuilder) (path : String)
    (sup : List DBCompressionType) (ct : DBCompressionType) (s : String)
    (e0 : Option Env) (o0 : ColumnFamilyOptions)
    (hreq : b.compression_type = some ct)
    (hns : sup.contains ct = false)
    (hfmt : fmt_db_compression_type ct = some s)
    (hbase : b.resolve_base = Except.ok (e0, o0)) :
    b.build path sup = (Outcome.err (unsupportedMsg s), []) := by
  have hns1 : ct ∉ sup := by simpa using hns
  have hc : resolve_compression b.compression_type sup =
      Outcome.err (unsupportedMsg s) := by
    simp [resolve_compression, hreq, hns1, hfmt]
  unfold SstWriterBuilder.build
  rw [hbase, hc]

/-- Claim C4, witness: the amended claim at a concrete builder requesting
lz4 against an engine supporting nothing. -/
theorem C4_unsupported_compression_witness :
    builder_lz4.compression_type = some DBCompressionType.lz4 ∧
    (([] : List DBCompressionType).contains DBCompressionType.lz4) = false ∧
    fmt_db_compression_type DBCompressionType.lz4 = some ("lz4") ∧
    builder_lz4.resolve_base = Except.ok (none, ColumnFamilyOptions.new) ∧
    builder_lz4.build path_ex [] =
      (Outcome.err (unsupportedMsg ("lz4")), []) := by
  refine ⟨rfl, rfl, rfl, rfl, ?_⟩
  exact C4_unsupported_compression builder_lz4 path_ex []
    DBCompressionType.lz4 ("lz4") none ColumnFamilyOptions.new rfl rfl rfl rfl

/-- Claim C5: every successful build hands the native writer options whose
per-level compression override is empty and whose bottommost compression
override is disabled, and whose sole compression setting is exactly the
resolved algorithm, whatever the base options contained. -/
theorem C5_sole_compression (b : SstWriterBuilder) (path : String)
    (sup : List DBCompressionType) (w : SstWriter) (evs : List Event)
    (h : b.build path sup = (Outcome.ok w, evs)) :
    w.writer.opts.compression_per_level = [] ∧
    w.writer.opts.bottommost_compression = DBCompressionType.disable ∧
    resolve_compression b.compression_type sup =
      Outcome.ok w.writer.opts.compression := by
  obtain ⟨e0, o0, ct, hb, hc, hw, he⟩ := build_ok_inversion b path sup w evs h
  subst hw
  exact ⟨rfl, rfl, hc⟩

/-- Claim C5, witness: the claim at a concrete plain disk-mode build. -/
theorem C5_sole_compression_witness :
    SstWriterBuilder.new.build path_ex [] =
      (Outcome.ok w_disk_built,
       [Event.writerConstructed, Event.fileOpened path_ex]) ∧
    w_disk_built.writer.opts.compression_per_level = [] ∧
    w_disk_built.writer.opts.bottommost_compression =
      DBCompressionType.disable ∧
    resolve_compression SstWriterBuilder.new.compression_type [] =
      Outcome.ok w_disk_built.writer.opts.compression := by
  have h := C5_sole_compression SstWriterBuilder.new path_ex [] w_disk_built
    [Event.writerConstructed, Event.fileOpened path_ex] rfl
  exact ⟨rfl, h.1, h.2.1, h.2.2⟩

/-- Claim C6: with a source database set, build looks the column-family
handle up under the configured name (defaulting to the well-known default
column family) and aborts with the ColumnFamilyNotFound error, performing no
native-writer or file work, whenever that name is absent. -/
theorem C6_cf_not_found (b : SstWriterBuilder) (path : String)
    (sup : List DBCompressionType) (d : DB)
    (hdb : b.db = some d)
    (hcf : d.cf_handle (b.cf.getD CF_DEFAULT) = none) :
    b.build path sup = (Outcome.err (cfNotFoundMsg b.cf), []) := by
  have hb : b.resolve_base = Except.error (cfNotFoundMsg b.cf) := by
    unfold SstWriterBuilder.resolve_base
    rw [hdb]
    simp [hcf]
  unfold SstWriterBuilder.build
  rw [hb]

/-- Claim C6, witness: the claim at a builder bound to an empty database and
requesting the absent column family named by cf_write. -/
theorem C6_cf_not_found_witness :
    ((SstWriterBuilder.new.set_db db_ex).set_cf cf_write).db = some db_ex ∧
    db_ex.cf_handle
        (((SstWriterBuilder.new.set_db db_ex).set_cf cf_write).cf.getD
          CF_DEFAULT) = none ∧
    ((SstWriterBuilder.new.set_db db_ex).set_cf cf_write).build path_ex [] =
      (Outcome.err (cfNotFoundMsg (some cf_write)), []) :=
  ⟨rfl, rfl,
    C6_cf_not_found ((SstWriterBuilder.new.set_db db_ex).set_cf cf_write)
      path_ex [] db_ex rfl rfl⟩

/-- Claim C7: every successful in-memory build records the fresh
memory-backed environment both as the writer's owned environment and as the
environment attached to the native writer's options, whatever source
database or candidate environment was present. -/
theorem C7_in_memory_env (b : SstWriterBuilder) (path : String)
    (sup : List DBCompressionType) (w : SstWriter) (evs : List Event)
    (hm : b.in_memory = true)
    (h : b.build path sup = (Outcome.ok w, evs)) :
    w.env = some Env.mem ∧ w.writer.opts.env = some Env.mem := by
  obtain ⟨e0, o0, ct, hb, hc, hw, he⟩ := build_ok_inversion b path sup w evs h
  subst hw
  rw [hm]
  exact ⟨rfl, rfl⟩

/-- The writer produced by a concrete in-memory build over a database that
exposes its own environment: the memory environment overrides it. -/
def w_mem_built : SstWriter :=
  { writer :=
      { path := OsPath.utf8 path_ex
        opts :=
          { env := some Env.mem
            compression := DBCompressionType.no
            compression_per_level := []
            bottommost_compression := DBCompressionType.disable
            other_settings := 0 }
        records := []
        finish_fail := none }
    env := some Env.mem }

/-- Claim C7, witness: the claim at a concrete in-memory build over a
database exposing a different candidate environment. -/
theorem C7_in_memory_env_witness :
    ((SstWriterBuilder.new.set_db db_with_env).set_in_memory
        true).in_memory = true ∧
    ((SstWriterBuilder.new.set_db db_with_env).set_in_memory true).build
        path_ex [] =
      (Outcome.ok w_mem_built,
       [Event.writerConstructed, Event.fileOpened path_ex]) ∧
    w_mem_built.env = some Env.mem ∧
    w_mem_built.writer.opts.env = some Env.mem := by
  have h := C7_in_memory_env
    ((SstWriterBuilder.new.set_db db_with_env).set_in_memory true) path_ex []
    w_mem_built [Event.writerConstructed, Event.fileOpened path_ex] rfl rfl
  exact ⟨rfl, rfl, h.1, h.2⟩

/-- Claim C10: finish_read checks the owned environment first: on a writer
without one it returns the MissingEnvironment error with no native events at
all, so the underlying writer's finish is never called and the file is
neither flushed nor closed on that path. -/
theorem C10_missing_env_no_finish (w : SstWriter) (h : w.env = none) :
    w.finish_read = (Outcome.err missingEnvMsg, []) ∧
    Event.finishCalled ∉ w.finish_read.snd := by
  have h1 : w.finish_read = (Outcome.err missingEnvMsg, []) := by
    unfold SstWriter.finish_read
    rw [h]
  refine ⟨h1, ?_⟩
  rw [h1]
  simp

/-- Claim C10, witness: the claim at the concrete disk-built writer. -/
theorem C10_missing_env_no_finish_witness :
    w_disk_built.env = none ∧
    w_disk_built.finish_read = (Outcome.err missingEnvMsg, []) ∧
    Event.finishCalled ∉ w_disk_built.finish_read.snd := by
  have h := C10_missing_env_no_finish w_disk_built rfl
  exact ⟨rfl, h.1, h.2⟩

/-! The round-trip property: lemmas about ordered appends. -/

theorem put_step (w : SstWriter) (k v : Bytes)
    (h : ordOk w.writer.lastKey k = true) :
    w.put k v = Except.ok
      { w with writer :=
          { w.writer with records := w.writer.records ++ [Record.put k v] } } := by
  unfold SstWriter.put SstFileWriter.put
  rw [h]
  simp

theorem del_step (w : SstWriter) (k : Bytes)
    (h : ordOk w.writer.lastKey k = true) :
    w.delete k = Except.ok
      { w with writer :=
          { w.writer with records := w.writer.records ++ [Record.del k] } } := by
  unfold SstWriter.delete SstFileWriter.delete
  rw [h]
  simp

theorem lastKey_concat (fw : SstFileWriter) (r : Record) :
    SstFileWriter.lastKey { fw with records := fw.records ++ [r] } =
      some r.key := by
  show (fw.records ++ [r]).getLast?.map Record.key = some r.key
  rw [List.getLast?_concat]
  rfl

theorem applyOps_append (ops : List Record) : ∀ (w : SstWriter),
    incrFrom w.writer.lastKey (ops.map Record.key) = true →
    w.applyOps ops = Except.ok
      { w with writer :=
          { w.writer with records := w.writer.records ++ ops } } := by
  induction ops with
  | nil =>
    intro w _
    simp [SstWriter.applyOps]
  | cons op rest ih =>
    intro w h
    rw [List.map_cons] at h
    simp only [incrFrom] at h
    rw [Bool.and_eq_true] at h
    obtain ⟨h1, h2⟩ := h
    cases op with
    | put k v =>
      have hl : SstFileWriter.lastKey
          { w.writer with records := w.writer.records ++ [Record.put k v] } =
          some k := lastKey_concat w.writer (Record.put k v)
      have h2a : incrFrom
          (SstFileWriter.lastKey
            { w.writer with
              records := w.writer.records ++ [Record.put k v] })
          (rest.map Record.key) = true := by
        rw [hl]; exact h2
      have ihw := ih
        { w with writer :=
            { w.writer with records := w.writer.records ++ [Record.put k v] } }
        h2a
      simp only [SstWriter.applyOps]
      rw [put_step w k v h1]
      show SstWriter.applyOps
        { w with writer :=
            { w.writer with
              records := w.writer.records ++ [Record.put k v] } } rest = _
      rw [ihw]
      simp
    | del k =>
      have hl : SstFileWriter.lastKey
          { w.writer with records := w.writer.records ++ [Record.del k] } =
          some k := lastKey_concat w.writer (Record.del k)
      have h2a : incrFrom
          (SstFileWriter.lastKey
            { w.writer with records := w.writer.records ++ [Record.del k] })
          (rest.map Record.key) = true := by
        rw [hl]; exact h2
      have ihw := ih
        { w with writer :=
            { w.writer with records := w.writer.records ++ [Record.del k] } }
        h2a
      simp only [SstWriter.applyOps]
      rw [del_step w k h1]
      show SstWriter.applyOps
        { w with writer :=
            { w.writer with
              records := w.writer.records ++ [Record.del k] } } rest = _
      rw [ihw]
      simp

/-- Claim C2: appending any sequence of put and delete records with strictly
increasing keys to a fresh writer succeeds, finalizing yields a file holding
exactly that record sequence, and opening the resulting file with SstReader
and iterating yields the same keys in the same order, with matching values
for put records and tombstone markers for delete records. -/
theorem C2_round_trip (w : SstWriter) (ops : List Record) (p : String)
    (hrec : w.writer.records = [])
    (hfe : w.writer.finish_fail = none)
    (hp : w.writer.path = OsPath.utf8 p)
    (hinc : strictIncr (ops.map Record.key) = true) :
    w.applyOps ops =
      Except.ok { w with writer := { w.writer with records := ops } } ∧
    SstWriter.finish { w with writer := { w.writer with records := ops } } =
      Except.ok
        ({ file_path := OsPath.utf8 p, num_entries := ops.length,
           file_size := sst_file_size ops }, ops) ∧
    SstReader.open [(OsPath.utf8 p, ops)] p = Except.ok { file := ops } ∧
    SstReader.iter { file := ops } = ops := by
  have hlast : w.writer.lastKey = none := by
    unfold SstFileWriter.lastKey
    rw [hrec]
    rfl
  have h1 := applyOps_append ops w (by rw [hlast]; exact hinc)
  refine ⟨?_, ?_, ?_, rfl⟩
  · rw [h1, hrec]
    simp
  · unfold SstWriter.finish SstFileWriter.finish
    rw [show ({ w with writer := { w.writer with records := ops } } :
        SstWriter).writer.finish_fail = none from hfe]
    rw [show ({ w with writer := { w.writer with records := ops } } :
        SstWriter).writer.path = OsPath.utf8 p from hp]
  · unfold SstReader.open fsLookup
    simp

/-- A fresh in-memory writer used to witness the round trip. -/
def w_mem_fresh : SstWriter :=
  { writer :=
      { path := OsPath.utf8 path_ex
        opts := ColumnFamilyOptions.new
        records := []
        finish_fail := none }
    env := some Env.mem }

/-- A concrete op sequence with strictly increasing keys: one put record and
one delete record. -/
def ops_ex : List Record :=
  [Record.put [0] [7], Record.del [1]]

/-- The writer after appending ops_ex to w_mem_fresh. -/
def w_mem_done : SstWriter :=
  { writer :=
      { path := OsPath.utf8 path_ex
        opts := ColumnFamilyOptions.new
        records := ops_ex
        finish_fail := none }
    env := some Env.mem }

/-- Claim C2, witness: the round trip at a concrete writer and record
sequence. -/
theorem C2_round_trip_witness :
    w_mem_fresh.writer.records = [] ∧
    w_mem_fresh.writer.finish_fail = none ∧
    w_mem_fresh.writer.path = OsPath.utf8 path_ex ∧
    strictIncr (ops_ex.map Record.key) = true ∧
    w_mem_fresh.applyOps ops_ex = Except.ok w_mem_done ∧
    SstWriter.finish w_mem_done =
      Except.ok
        ({ file_path := OsPath.utf8 path_ex, num_entries := 2,
           file_size := sst_file_size ops_ex }, ops_ex) ∧
    SstReader.open [(OsPath.utf8 path_ex, ops_ex)] path_ex =
      Except.ok { file := ops_ex } ∧
    SstReader.iter { file := ops_ex } = ops_ex := by
  obtain ⟨h1, h2, h3, h4⟩ :=
    C2_round_trip w_mem_fresh ops_ex path_ex rfl rfl rfl (by decide)
  exact ⟨rfl, rfl, rfl, by decide, h1, h2, h3, h4⟩

/-- Claim C8: once finalization has produced the summary (owned environment
present, native finish succeeded), finish_read returns the InvalidPath error
exactly when the finalized file's path is not representable as engine text,
and the sequential-open attempt happens only when the path is representable. -/
theorem C8_invalid_path (w : SstWriter) (e : Env) (info : ExternalSstFileInfo)
    (content : SstFile)
    (henv : w.env = some e)
    (hfin : w.writer.finish = Except.ok (info, content)) :
    (info.file_path.to_str = none →
      w.finish_read =
        (Outcome.err (badPathPrefix ++ info.file_path.display),
         [Event.finishCalled])) ∧
    (∀ p, info.file_path.to_str = some p →
      w.finish_read =
        (Outcome.ok (info, e.new_sequential_file p content),
         [Event.finishCalled, Event.seqOpenAttempt p])) := by
  obtain ⟨fw, oe⟩ := w
  have hoe : oe = some e := henv
  subst hoe
  have hfw : fw.finish = Except.ok (info, content) := hfin
  constructor
  · intro hp
    simp only [SstWriter.finish_read, hfw, hp]
  · intro p hp
    simp only [SstWriter.finish_read, hfw, hp]

/-- A writer finalizing to a non-UTF-8 path, with an owned environment. -/
def w_bad_path : SstWriter :=
  { writer :=
      { path := OsPath.nonUtf8 [255]
        opts := ColumnFamilyOptions.new
        records := []
        finish_fail := none }
    env := some Env.mem }

/-- The summary produced by finalizing w_bad_path. -/
def info_bad_path : ExternalSstFileInfo :=
  { file_path := OsPath.nonUtf8 [255], num_entries := 0, file_size := 1 }

/-- Claim C8, witness: the claim at a concrete writer whose finalized path
is not valid UTF-8. -/
theorem C8_invalid_path_witness :
    w_bad_path.env = some Env.mem ∧
    w_bad_path.writer.finish = Except.ok (info_bad_path, []) ∧
    info_bad_path.file_path.to_str = none ∧
    w_bad_path.finish_read =
      (Outcome.err (badPathPrefix ++ info_bad_path.file_path.display),
       [Event.finishCalled]) := by
  have h := C8_invalid_path w_bad_path Env.mem info_bad_path [] rfl rfl
  exact ⟨rfl, rfl, rfl, h.1 rfl⟩

/-- Each counter of a summed CfStatistics stays within the usize range. -/
theorem cf_add_wf (c d : CfStatistics) : (c.add d).wf :=
  ⟨Nat.min_le_right _ _, Nat.min_le_right _ _, Nat.min_le_right _ _,
   Nat.min_le_right _ _, Nat.min_le_right _ _, Nat.min_le_right _ _,
   Nat.min_le_right _ _, Nat.min_le_right _ _, Nat.min_le_right _ _⟩

/-- Claim C9: CfStatistics::add combines every counter field (the flow
counters included) with saturating addition, Statistics::add applies it to
all three column families, and the sums never leave the usize range, so no
counter wraps around even near the maximum representable value. -/
theorem C9_saturating_stats (c d : CfStatistics) (s o : Statistics) :
    (c.add d).processed_keys =
      saturating_add c.processed_keys d.processed_keys ∧
    (c.add d).get = saturating_add c.get d.get ∧
    (c.add d).next = saturating_add c.next d.next ∧
    (c.add d).prev = saturating_add c.prev d.prev ∧
    (c.add d).seek = saturating_add c.seek d.seek ∧
    (c.add d).seek_for_prev =
      saturating_add c.seek_for_prev d.seek_for_prev ∧
    (c.add d).over_seek_bound =
      saturating_add c.over_seek_bound d.over_seek_bound ∧
    (c.add d).flow_stats.read_keys =
      saturating_add c.flow_stats.read_keys d.flow_stats.read_keys ∧
    (c.add d).flow_stats.read_bytes =
      saturating_add c.flow_stats.read_bytes d.flow_stats.read_bytes ∧
    (c.add d).wf ∧
    (s.add o).lock = s.lock.add o.lock ∧
    (s.add o).write = s.write.add o.write ∧
    (s.add o).data = s.data.add o.data ∧
    (s.add o).wf :=
  ⟨rfl, rfl, rfl, rfl, rfl, rfl, rfl, rfl, rfl, cf_add_wf c d,
   rfl, rfl, rfl,
   cf_add_wf s.lock o.lock, cf_add_wf s.write o.write,
   cf_add_wf s.data o.data⟩
